import Mathlib

/-!
Shallow embedding of the docagent-foundry repository (Python sources:
`agent_with_crew.py`, `main.py`, `agents.py`, `utils.py`) together with
theorems settling the frozen claims about its specification.

Strings are modelled by Lean `String` / `List Char`; Python file-system and
network effects are modelled by explicit outcome parameters (an `Except` or
an inductive outcome type per effectful call), so that every embedded
operation is a total, executable Lean function.
-/

namespace DocFoundry

/-! ## Basic string utilities (List Char level) -/

/-- Prefix test on character lists, the model of Python `str.startswith`. -/
def isPref : List Char → List Char → Bool
  | [], _ => true
  | _ :: _, [] => false
  | a :: as, b :: bs => a == b && isPref as bs

/-- Substring test on character lists, the model of Python `needle in hay`. -/
def containsSub (n : List Char) : List Char → Bool
  | [] => isPref n []
  | c :: t => isPref n (c :: t) || containsSub n t

/-- Whitespace predicate used by Python `str.strip` (space, tab, CR, LF). -/
def isWS (c : Char) : Bool := c = ' ' || c = '\t' || c = '\n' || c = '\r'

/-- Model of Python `str.strip()`: drop whitespace from both ends. -/
def stripL (l : List Char) : List Char :=
  ((l.dropWhile isWS).reverse.dropWhile isWS).reverse

/-- Model of Python `content.split('\n')`. -/
def splitNL : List Char → List (List Char)
  | [] => [[]]
  | '\n' :: t => [] :: splitNL t
  | c :: t =>
    match splitNL t with
    | [] => [[c]]
    | h :: r => (c :: h) :: r

theorem isPref_iff_append (p l : List Char) :
    isPref p l = true ↔ ∃ t, l = p ++ t := by
  induction p generalizing l with
  | nil => simp [isPref]
  | cons a as ih =>
    cases l with
    | nil => simp [isPref]
    | cons b t =>
      simp only [isPref, Bool.and_eq_true, beq_iff_eq, ih, List.cons_append,
        List.cons.injEq]
      constructor
      · rintro ⟨rfl, u, rfl⟩
        exact ⟨u, rfl, rfl⟩
      · rintro ⟨u, rfl, rfl⟩
        exact ⟨rfl, u, rfl⟩

/-! ## Document generator: per-line markdown classification
(`DocumentGeneratorTool._run` in `agent_with_crew.py`, lines 114-124). -/

/-- What one markdown line turns into inside the generated DOCX. -/
inductive DocLine where
  | heading (level : Nat) (text : List Char)
  | paragraph (text : List Char)
  | blank
  deriving Repr, DecidableEq

/-- The marker `"# "` from `line.startswith('# ')`. -/
def mark1 : List Char := ['#', ' ']

/-- The marker `"## "` from `line.startswith('## ')`. -/
def mark2 : List Char := ['#', '#', ' ']

/-- The marker `"### "` from `line.startswith('### ')`. -/
def mark3 : List Char := ['#', '#', '#', ' ']

/-- The if/elif chain of `DocumentGeneratorTool._run`, in the textual order of
the source: `'# '` is tested first, then `'## '`, then `'### '`, then
`line.strip()`. -/
def classifyLine (line : List Char) : DocLine :=
  if isPref mark1 line then .heading 1 (line.drop 2)
  else if isPref mark2 line then .heading 2 (line.drop 3)
  else if isPref mark3 line then .heading 3 (line.drop 4)
  else if stripL line ≠ [] then .paragraph line
  else .blank

/-- The same classification with the markers tested longest-first, following
the spec sentence "Mapping must check the longest marker prefix first".
Used only to compare against `classifyLine`. -/
def classifyLineSpecOrder (line : List Char) : DocLine :=
  if isPref mark3 line then .heading 3 (line.drop 4)
  else if isPref mark2 line then .heading 2 (line.drop 3)
  else if isPref mark1 line then .heading 1 (line.drop 2)
  else if stripL line ≠ [] then .paragraph line
  else .blank

/-- The non-blank body lines of the generated DOCX for a given markdown
content (the `for line in lines` loop of the generator). -/
def docxBody (content : List Char) : List DocLine :=
  ((splitNL content).map classifyLine).filter (fun d => d ≠ DocLine.blank)

theorem classifyLine_of_mark3 (line : List Char) (h : isPref mark3 line = true) :
    classifyLine line = .heading 3 (line.drop 4) := by
  obtain ⟨t, rfl⟩ := (isPref_iff_append _ _).1 h
  rfl

theorem classifyLine_of_mark2 (line : List Char) (h : isPref mark2 line = true) :
    classifyLine line = .heading 2 (line.drop 3) := by
  obtain ⟨t, rfl⟩ := (isPref_iff_append _ _).1 h
  rfl

theorem classifyLine_of_mark1 (line : List Char) (h : isPref mark1 line = true) :
    classifyLine line = .heading 1 (line.drop 2) := by
  obtain ⟨t, rfl⟩ := (isPref_iff_append _ _).1 h
  rfl

theorem classifyLine_eq_specOrder (line : List Char) :
    classifyLine line = classifyLineSpecOrder line := by
  cases h1 : isPref mark1 line with
  | true =>
    obtain ⟨t, rfl⟩ := (isPref_iff_append _ _).1 h1
    rfl
  | false =>
    cases h2 : isPref mark2 line with
    | true =>
      obtain ⟨t, rfl⟩ := (isPref_iff_append _ _).1 h2
      rfl
    | false =>
      cases h3 : isPref mark3 line with
      | true =>
        obtain ⟨t, rfl⟩ := (isPref_iff_append _ _).1 h3
        rfl
      | false =>
        simp [classifyLine, classifyLineSpecOrder, h1, h2, h3]

theorem classifyLine_heading_inv (line : List Char) (lv : Nat) (t : List Char)
    (h : classifyLine line = .heading lv t) :
    isPref mark1 line = true ∨ isPref mark2 line = true ∨ isPref mark3 line = true := by
  unfold classifyLine at h
  split at h
  · left; assumption
  · split at h
    · right; left; assumption
    · split at h
      · right; right; assumption
      · split at h <;> simp_all

/-! ## String-level utilities -/

/-- Substring test on `String`, the model of Python `needle in hay`. -/
def containsS (needle hay : String) : Bool := containsSub needle.data hay.data

/-- Model of Python `str.endswith` for one suffix. -/
def endsWithS (s post : String) : Bool := isPref post.data.reverse s.data.reverse

/-- Model of Python `str.lower()`. -/
def lowerS (s : String) : String := String.mk (s.data.map Char.toLower)

/-- Model of Python `str.strip()` at the `String` level. -/
def stripS (s : String) : String := String.mk (stripL s.data)

/-- Model of joining the lines of a file back into its text with `'\n'`
(inverse of `splitlines`); used to present a file's content to the
substring checks that Python runs on `f.read()`. -/
def joinNL : List String → String
  | [] => ""
  | [l] => l
  | l :: ls => l ++ "\n" ++ joinNL ls

theorem strData_append (x y : String) : (x ++ y).data = x.data ++ y.data := by
  cases x
  cases y
  rfl

theorem containsSub_append_left (n x y : List Char) (h : containsSub n x = true) :
    containsSub n (x ++ y) = true := by
  induction x with
  | nil =>
    cases n with
    | nil =>
      cases y with
      | nil => simpa [containsSub] using h
      | cons c t => simp [containsSub, isPref]
    | cons a as => simp [containsSub, isPref] at h
  | cons c t ih =>
    simp only [containsSub, Bool.or_eq_true] at h ⊢
    rcases h with h | h
    · left
      obtain ⟨u, hu⟩ := (isPref_iff_append _ _).1 h
      refine (isPref_iff_append _ _).2 ⟨u ++ y, ?_⟩
      rw [← List.append_assoc, ← hu]
      simp
    · right
      exact ih h

theorem containsSub_append_right (n x y : List Char) (h : containsSub n y = true) :
    containsSub n (x ++ y) = true := by
  induction x with
  | nil => simpa using h
  | cons c t ih =>
    simp only [List.cons_append, containsSub, Bool.or_eq_true]
    right
    exact ih

theorem containsS_append_left (n x y : String) (h : containsS n x = true) :
    containsS n (x ++ y) = true := by
  unfold containsS at h ⊢
  rw [strData_append]
  exact containsSub_append_left _ _ _ h

theorem containsS_append_right (n x y : String) (h : containsS n y = true) :
    containsS n (x ++ y) = true := by
  unfold containsS at h ⊢
  rw [strData_append]
  exact containsSub_append_right _ _ _ h

/-! ## Document generator file output
(`DocumentGeneratorTool._run` in `agent_with_crew.py`, lines 98-133).

The two file-system operations that can raise inside the `try` block are
the markdown write (`open(md_path, 'w')` / `f.write`) and the DOCX save
(`doc.save(docx_path)`).  Their outcomes are passed in explicitly. -/

/-- Outcomes of the two file-system writes performed by the generator. -/
structure FsOutcome where
  mdWrite : Except String Unit
  docxSave : Except String Unit
  deriving Repr

/-- Observable result of one `_run` call: the returned string, which files
ended up written on disk, and the body of the saved DOCX. -/
structure GenResult where
  output : String
  mdWritten : Bool
  docxWritten : Bool
  docxLines : List DocLine
  deriving Repr, DecidableEq

/-- The `except` branch: `f" Error generating files: {str(e)}"`. -/
def errText (e : String) : String := " Error generating files: " ++ e

/-- The success return value of `_run`. -/
def okText (name : String) : String :=
  "Files generated successfully:\n- " ++ name ++ ".md\n- " ++ name ++ ".docx"

/-- Model of `DocumentGeneratorTool._run content project_name`: write the markdown
file, build and save the DOCX, catching every exception and returning an
error string instead. The writes run sequentially inside one `try`, so a
markdown failure skips the DOCX save; nothing written is rolled back. -/
def generatorRun (content name : String) (fs : FsOutcome) : GenResult :=
  match fs.mdWrite with
  | .error e => ⟨errText e, false, false, []⟩
  | .ok _ =>
    match fs.docxSave with
    | .error e => ⟨errText e, true, false, []⟩
    | .ok _ => ⟨okText name, true, true, docxBody content.data⟩

/-! ## Codebase scanner
(`CodebaseAnalyzerTool._run` in `agent_with_crew.py`, lines 51-89).

A directory snapshot is the list of files produced by `os.walk`, in walk
order.  Each file carries its joined path, its bare name, and a read
outcome: `fail` models the first `open` raising (caught by the bare
`except`), `ok lines secondOk` gives the file's lines, with `secondOk`
modelling whether the second, strict `open(path)` on line 79 succeeds. -/

/-- Outcome of reading one file during the scan. -/
inductive ReadOutcome where
  | fail
  | ok (lines : List String) (secondOk : Bool)
  deriving Repr

/-- One entry of the `os.walk` enumeration. -/
structure SrcFile where
  path : String
  name : String
  read : ReadOutcome
  deriving Repr

/-- The `result` dict built by `CodebaseAnalyzerTool._run`. -/
structure AnalysisRecord where
  language : String
  files : List String
  endpoints : List String
  auth_methods : List String
  databases : List String
  security_issues : List String
  architecture : String
  deriving Repr, DecidableEq

/-- The initial `result` dict (lines 53-61). -/
def initialRecord : AnalysisRecord :=
  ⟨"unknown", [], [], [], [], [], "Not detected"⟩

/-- Model of `file.endswith(('.py', '.js', '.ts', '.java', '.go', '.cs'))`. -/
def eligibleName (name : String) : Bool :=
  endsWithS name ".py" || endsWithS name ".js" || endsWithS name ".ts" ||
    endsWithS name ".java" || endsWithS name ".go" || endsWithS name ".cs"

/-- The lowered text the scan checks substrings against: `f.read().lower()`. -/
def contentOf (lines : List String) : String := lowerS (joinNL lines)

/-- Model of `any(x in content for x in ['fastapi', 'flask', '@app.route', 'router.'])`. -/
def webMarkers (content : String) : Bool :=
  containsS "fastapi" content || containsS "flask" content ||
    containsS "@app.route" content || containsS "router." content

/-- Model of `any(x in content for x in ['jwt', 'oauth', 'passport', 'auth0'])`. -/
def authMarkers (content : String) : Bool :=
  containsS "jwt" content || containsS "oauth" content ||
    containsS "passport" content || containsS "auth0" content

/-- Model of `'password' in content and ('=' in content or 'hardcoded' in content)`. -/
def secretMarkers (content : String) : Bool :=
  containsS "password" content &&
    (containsS "=" content || containsS "hardcoded" content)

/-- The filter of the endpoint comprehension: `'get(' in l or 'post(' in l`. -/
def epLine (l : String) : Bool := containsS "get(" l || containsS "post(" l

/-- The tail of the `try` block after the web-framework branch: the
`express` check, the auth-marker check and the hardcoded-secret check
(lines 80-85), each a separate `if` on the lowered content. -/
def processRest (r : AnalysisRecord) (content : String) (name : String) : AnalysisRecord :=
  let r1 := if containsS "express" content then { r with language := "Node.js Express" } else r
  let r2 := if authMarkers content then
    { r1 with auth_methods := r1.auth_methods ++ ["OAuth/JWT detected"] } else r1
  if secretMarkers content then
    { r2 with security_issues := r2.security_issues ++ ["Possible secret in " ++ name] }
  else r2

/-- The `try ... except: pass` body for one file (lines 74-86).  A `fail`
read raises immediately and is swallowed; if the web branch's second
`open` raises, the language has already been set but the endpoint
extension and all later checks are skipped, and the exception is
swallowed. -/
def processTry (r : AnalysisRecord) (f : SrcFile) : AnalysisRecord :=
  match f.read with
  | .fail => r
  | .ok lines secondOk =>
    let content := contentOf lines
    if webMarkers content then
      let r1 := { r with language := "Python Web" }
      if secondOk then
        let r2 := { r1 with
          endpoints := r1.endpoints ++ (lines.filter epLine).map stripS }
        processRest r2 content f.name
      else r1
    else processRest r content f.name

/-- One iteration of the inner `for file in files` loop: eligible files are
appended to `result["files"]` before the `try` block (line 73). -/
def processFile (r : AnalysisRecord) (f : SrcFile) : AnalysisRecord :=
  if eligibleName f.name then
    processTry { r with files := r.files ++ [f.path] } f
  else r

/-- Model of `CodebaseAnalyzerTool._run` over a directory snapshot: fold the loop
body over the walked files, then format the architecture summary
(line 88). -/
def scanCodebase (walk : List SrcFile) : AnalysisRecord :=
  let r := walk.foldl processFile initialRecord
  { r with architecture :=
      toString r.files.length ++ " files | " ++ r.language ++ " | " ++
        toString r.endpoints.length ++ " endpoints" }

/-! ## Workflow driver (`main.py`)

`run_fallback_workflow` (lines 154-283) and `run_docagent_workflow`
(lines 30-151).  The two functions `analyze_codebase_advanced` and
`render_documents_advanced` live in `tools.py`, which is not part of the
sources; their results are therefore passed in as explicit outcome
parameters, consistent with the spec's description of the scanner and the
renderer. -/

/-- The keys of the analysis dict that the fallback template reads through
`analysis_dict.get(...)`; a missing key reads as an empty list. -/
structure AnalysisDict where
  files : List String
  api_endpoints : List String
  security_findings : List String
  deriving Repr, DecidableEq

/-- The literal `{"files": [], "structure": {}, "security_findings": []}`
used when no codebase path is given (line 180). -/
def emptyAnalysisDict : AnalysisDict := ⟨[], [], []⟩

/-- Outcome of Step 1 of the fallback workflow. -/
inductive AnalysisStep where
  | skipped
  | ok (a : AnalysisDict)
  | raised (e : String)
  deriving Repr

/-- The result dict returned by the workflow functions; keys absent from a
given return value are `none`. -/
structure WorkflowResult where
  status : String
  error : Option String := none
  documentation : Option String := none
  analysis : Option AnalysisDict := none
  rendered_files : List String := []
  deriving Repr

/-- Template fragment (line 209): the System Architecture line. -/
def fbSystemArch (a : AnalysisDict) : String :=
  if a.files.isEmpty then "Template architecture - customize based on your system"
  else "Architecture based on analyzed codebase"

/-- Template fragment (line 217): the API Endpoints line. -/
def fbApi (a : AnalysisDict) : String :=
  if a.api_endpoints.isEmpty then "Define your API endpoints here"
  else "Detected " ++ toString a.api_endpoints.length ++ " API endpoints"

/-- Template fragment (line 232): the conditional Security Findings header. -/
def fbSecHeader (a : AnalysisDict) : String :=
  if a.security_findings.isEmpty then "" else "### Security Findings"

/-- Template fragment (line 233): up to five findings as bullet lines. -/
def fbSecList (a : AnalysisDict) : String :=
  joinNL ((a.security_findings.take 5).map (fun s => "- " ++ s))

/-- Template fragment (line 248): the Technology Stack line. -/
def fbTech (a : AnalysisDict) : String :=
  if a.files.isEmpty then "Define your tech stack"
  else "Python: " ++ toString (a.files.filter (fun f => endsWithS f ".py")).length ++ " files"

/-- Literal template text up to the interpolated prompt (lines 184-187). -/
def fbLit1 : String :=
  "# Documentation Package\n\n## Project Overview\nGenerated based on: "

/-- Literal template text between the prompt and the System Architecture
fragment (lines 188-208). -/
def fbLit2 : String :=
  "\n\n## Business Requirements Document (BRD)\n\n### Executive Summary\nThis document outlines the business requirements for the system.\n\n### Stakeholders\n- Development Team\n- Product Management\n- Quality Assurance\n- Security Team\n\n### Business Objectives\n1. Deliver high-quality documentation\n2. Ensure comprehensive coverage\n3. Maintain security standards\n4. Enable efficient onboarding\n\n## Functional Requirements Document (FRD)\n\n### System Architecture\n"

/-- Literal template text between the System Architecture and API
Endpoints fragments (lines 210-216). -/
def fbLit3 : String :=
  "\n\n### Core Features\n1. **Feature 1**: Description\n2. **Feature 2**: Description\n3. **Feature 3**: Description\n\n### API Endpoints\n"

/-- Literal template text between the API Endpoints fragment and the
Security Findings header (lines 218-231). -/
def fbLit4 : String :=
  "\n\n## Non-Functional Requirements Document (NFRD)\n\n### Performance Requirements\n- Response Time: < 200ms for API calls\n- Throughput: 1000 requests/second\n- Availability: 99.9% uptime\n\n### Security Requirements\n- Authentication: OAuth 2.0 / JWT\n- Authorization: Role-Based Access Control (RBAC)\n- Encryption: TLS 1.3 for data in transit\n- Data Protection: AES-256 for data at rest\n\n"

/-- Literal template text between the findings list and the Technology
Stack fragment (lines 234-247). -/
def fbLit5 : String :=
  "\n\n### Scalability\n- Horizontal scaling capability\n- Load balancing\n- Caching strategy\n\n## Compliance & Standards\n- GDPR compliance\n- SOC 2 Type II\n- ISO 27001\n\n## Architecture Overview\n\n### Technology Stack\n"

/-- Literal template text from the Deployment Architecture section to the
interpolated date (lines 249-257). -/
def fbLit6 : String :=
  "\n\n### Deployment Architecture\n- Cloud Platform: Azure\n- Container Orchestration: Kubernetes\n- CI/CD: GitHub Actions\n\n---\nGenerated by Azure AI Foundry Documentation Agent\nDate: "

/-- The f-string documentation skeleton of `run_fallback_workflow`
(lines 184-258); `now` is the interpolated timestamp. -/
def fallbackDocumentation (prompt : String) (a : AnalysisDict) (now : String) : String :=
  fbLit1 ++ (prompt ++ (fbLit2 ++ (fbSystemArch a ++ (fbLit3 ++ (fbApi a ++
    (fbLit4 ++ (fbSecHeader a ++ ("\n" ++ (fbSecList a ++ (fbLit5 ++
      (fbTech a ++ (fbLit6 ++ (now ++ "\n")))))))))))))

/-- Steps 2-3 of the fallback workflow: build the documentation, render it,
and assemble the result dict; a render exception falls to the `except`
branch that returns only a status/error pair. -/
def finishFallback (prompt : String) (aDict : AnalysisDict)
    (aField : Option AnalysisDict) (now : String)
    (render : Except String (List String)) : WorkflowResult :=
  let doc := fallbackDocumentation prompt aDict now
  match render with
  | .error e => { status := "error", error := some e }
  | .ok files =>
    { status := "success_fallback", documentation := some doc,
      analysis := aField, rendered_files := files }

/-- Model of `run_fallback_workflow` (lines 154-283). -/
def run_fallback_workflow (prompt : String) (step : AnalysisStep)
    (now : String) (render : Except String (List String)) : WorkflowResult :=
  match step with
  | .raised e => { status := "error", error := some e }
  | .skipped => finishFallback prompt emptyAnalysisDict none now render
  | .ok a => finishFallback prompt a (some a) now render

/-- Outcome of the hosted `create_thread_and_process_run` interaction. -/
inductive HostedOutcome where
  | throws (msg : String)
  | incomplete (runStatus : String)
  | noAssistantMessage
  | completed (doc : String)
  deriving Repr

/-- Environment of one `run_docagent_workflow` call: SDK availability,
agent initialization, client connection, hosted-run outcome and the
hosted-path render outcome. -/
structure HostedEnv where
  sdkAvailable : Bool
  agents : Option String
  clientOk : Bool
  hosted : HostedOutcome
  render : Except String (List String)

/-- Observable trace of one workflow run: the returned result dict,
whether the render step was reached, and the files written on disk. -/
structure RunTrace where
  result : WorkflowResult
  renderAttempted : Bool
  filesWritten : List String

/-- The three conditions of `run_docagent_workflow` that route execution to
the fallback path (lines 45-61). -/
def hostedUnavailable (env : HostedEnv) : Prop :=
  env.sdkAvailable = false ∨ env.agents = none ∨ env.clientOk = false

/-- The fallback path as a trace: the render step is reached unless the
analysis step raised first. -/
def fallbackTrace (prompt : String) (step : AnalysisStep) (now : String)
    (render : Except String (List String)) : RunTrace :=
  let res := run_fallback_workflow prompt step now render
  { result := res,
    renderAttempted := (match step with | .raised _ => false | _ => true),
    filesWritten := res.rendered_files }

/-- Model of `run_docagent_workflow` (lines 30-151).  `step` and `fbRender` feed the
fallback path; `env` describes the hosted path.  A hosted exception is
caught by the outer `try` and returned as an `error` status; a hosted
render exception is caught by the inner `try` and the run still returns
`success` with no rendered files. -/
def run_docagent_workflow (prompt : String) (step : AnalysisStep)
    (now : String) (fbRender : Except String (List String))
    (env : HostedEnv) : RunTrace :=
  if env.sdkAvailable = false then fallbackTrace prompt step now fbRender
  else match env.agents with
  | none => fallbackTrace prompt step now fbRender
  | some _ =>
    if env.clientOk = false then fallbackTrace prompt step now fbRender
    else match env.hosted with
    | .throws e =>
      { result := { status := "error", error := some e },
        renderAttempted := false, filesWritten := [] }
    | .incomplete st =>
      { result := { status := "failed", error := some st },
        renderAttempted := false, filesWritten := [] }
    | .noAssistantMessage =>
      { result := { status := "no_output" },
        renderAttempted := false, filesWritten := [] }
    | .completed doc =>
      match env.render with
      | .error _ =>
        { result := { status := "success", documentation := some doc, rendered_files := [] },
          renderAttempted := true, filesWritten := [] }
      | .ok files =>
        { result := { status := "success", documentation := some doc, rendered_files := files },
          renderAttempted := true, filesWritten := files }

/-! ## Auxiliary lemmas and concrete inputs -/

theorem processRest_endpoints (r : AnalysisRecord) (c n : String) :
    (processRest r c n).endpoints = r.endpoints := by
  unfold processRest
  split <;> split <;> split <;> rfl

/-- A source file whose first `open` raises. -/
def unreadableFile : SrcFile := ⟨"proj/broken.py", "broken.py", ReadOutcome.fail⟩

/-- A web-framework file with one endpoint line carrying surrounding
whitespace. -/
def paddedFile : SrcFile :=
  ⟨"srv/app.py", "app.py", ReadOutcome.ok ["import flask", "  app.get(id)  "] true⟩

/-- The scenario file containing `@app.route('/login')` and `jwt`. -/
def loginFile : SrcFile :=
  ⟨"app.py", "app.py", ReadOutcome.ok ["@app.route(\x27/login\x27) jwt"] true⟩

/-! ## Claims -/

/-- Claim C1: in the document generator's line classification, every line
starting with `"### "` maps to a heading of level 3; every line starting
with `"## "` and not `"### "` to level 2; every line starting with `"# "`
and not `"## "` to level 1; every other non-blank line to a plain
paragraph; no other line becomes a heading; and the classification is the
same as with the longest-marker-first test order. -/
theorem C1_heading_level_map :
    (∀ line : List Char, isPref mark3 line = true →
      classifyLine line = DocLine.heading 3 (line.drop 4)) ∧
    (∀ line : List Char, isPref mark2 line = true → isPref mark3 line = false →
      classifyLine line = DocLine.heading 2 (line.drop 3)) ∧
    (∀ line : List Char, isPref mark1 line = true → isPref mark2 line = false →
      classifyLine line = DocLine.heading 1 (line.drop 2)) ∧
    (∀ line : List Char, isPref mark1 line = false → isPref mark2 line = false →
      isPref mark3 line = false → stripL line ≠ [] →
      classifyLine line = DocLine.paragraph line) ∧
    (∀ (line t : List Char) (lv : Nat), classifyLine line = DocLine.heading lv t →
      isPref mark1 line = true ∨ isPref mark2 line = true ∨ isPref mark3 line = true) ∧
    (∀ line : List Char, classifyLine line = classifyLineSpecOrder line) := by
  refine ⟨?_, ?_, ?_, ?_, ?_, ?_⟩
  · intro line h
    exact classifyLine_of_mark3 line h
  · intro line h _
    exact classifyLine_of_mark2 line h
  · intro line h _
    exact classifyLine_of_mark1 line h
  · intro line h1 h2 h3 h4
    simp [classifyLine, h1, h2, h3, h4]
  · intro line t lv h
    exact classifyLine_heading_inv line lv t h
  · exact classifyLine_eq_specOrder

/-- Witness for C1 at concrete lines. -/
theorem C1_heading_level_map_witness :
    classifyLine "### Title".data = DocLine.heading 3 "Title".data ∧
    classifyLine "## Sub".data = DocLine.heading 2 "Sub".data ∧
    classifyLine "# Top".data = DocLine.heading 1 "Top".data ∧
    classifyLine "plain text".data = DocLine.paragraph "plain text".data := by
  refine ⟨?_, ?_, ?_, ?_⟩
  · exact (C1_heading_level_map.1 "### Title".data (by decide)).trans (by decide)
  · exact (C1_heading_level_map.2.1 "## Sub".data (by decide) (by decide)).trans (by decide)
  · exact (C1_heading_level_map.2.2.1 "# Top".data (by decide) (by decide)).trans (by decide)
  · exact C1_heading_level_map.2.2.2.1 "plain text".data (by decide) (by decide)
      (by decide) (by decide)

/-- Claim C3 counterexample: a file whose read raises still appears in the
file list of the scan result, contrary to "does not appear in the
AnalysisRecord's file list". -/
theorem C3_failed_file_listed :
    (scanCodebase [unreadableFile]).files = ["proj/broken.py"] ∧
    "proj/broken.py" ∈ (scanCodebase [unreadableFile]).files := by
  refine ⟨rfl, ?_⟩
  have h : (scanCodebase [unreadableFile]).files = ["proj/broken.py"] := rfl
  rw [h]
  exact List.mem_singleton_self _

/-- Claim C3 (amended): a per-file read error is swallowed silently — the
loop body returns normally — but the offending file is excluded only from
the content-derived results: its path is still appended to the file list,
and the language, endpoints, auth methods, databases and security issues
are untouched. -/
theorem C3_read_error_swallowed :
    ∀ (r : AnalysisRecord) (f : SrcFile), f.read = ReadOutcome.fail →
      eligibleName f.name = true →
      processFile r f = { r with files := r.files ++ [f.path] } := by
  intro r f hread helig
  simp [processFile, processTry, helig, hread]

/-- Witness for C3 at a concrete unreadable file. -/
theorem C3_read_error_swallowed_witness :
    processFile initialRecord unreadableFile =
      { initialRecord with files := initialRecord.files ++ [unreadableFile.path] } :=
  C3_read_error_swallowed initialRecord unreadableFile rfl (by decide)

/-- Claim C5 counterexample: the matching line `"  app.get(id)  "` is
stored stripped, as `"app.get(id)"`, not verbatim. -/
theorem C5_not_verbatim :
    (scanCodebase [paddedFile]).endpoints = ["app.get(id)"] ∧
    "  app.get(id)  " ∉ (scanCodebase [paddedFile]).endpoints := by
  refine ⟨rfl, ?_⟩
  have h : (scanCodebase [paddedFile]).endpoints = ["app.get(id)"] := rfl
  rw [h]
  decide

/-- Claim C5 (amended): for a readable file classified as a web framework,
the scan appends exactly the lines containing `"get("` or `"post("`, in
file order and without deduplication, but each stored line is stripped of
leading and trailing whitespace rather than kept verbatim. -/
theorem C5_endpoints_stripped :
    ∀ (r : AnalysisRecord) (f : SrcFile) (lines : List String),
      eligibleName f.name = true →
      f.read = ReadOutcome.ok lines true →
      webMarkers (contentOf lines) = true →
      (processFile r f).endpoints =
        r.endpoints ++ (lines.filter epLine).map stripS := by
  intro r f lines helig hread hweb
  simp [processFile, processTry, helig, hread, hweb, processRest_endpoints]

/-- Witness for C5 at a concrete web-framework file. -/
theorem C5_endpoints_stripped_witness :
    (processFile initialRecord paddedFile).endpoints =
      initialRecord.endpoints ++
        ((["import flask", "  app.get(id)  "] : List String).filter epLine).map stripS :=
  C5_endpoints_stripped initialRecord paddedFile ["import flask", "  app.get(id)  "]
    (by decide) rfl (by decide)

/-- Claim C7: the scan is deterministic — two scans of the same directory
snapshot agree on every field of the AnalysisRecord. -/
theorem C7_scan_deterministic :
    ∀ w1 w2 : List SrcFile, w1 = w2 →
      (scanCodebase w1).files = (scanCodebase w2).files ∧
      (scanCodebase w1).language = (scanCodebase w2).language ∧
      (scanCodebase w1).endpoints = (scanCodebase w2).endpoints ∧
      (scanCodebase w1).auth_methods = (scanCodebase w2).auth_methods ∧
      (scanCodebase w1).security_issues = (scanCodebase w2).security_issues ∧
      (scanCodebase w1).architecture = (scanCodebase w2).architecture ∧
      scanCodebase w1 = scanCodebase w2 := by
  rintro w1 w2 rfl
  exact ⟨rfl, rfl, rfl, rfl, rfl, rfl, rfl⟩

/-- Witness for C7 at a concrete snapshot. -/
theorem C7_scan_deterministic_witness :
    (scanCodebase [paddedFile, unreadableFile]).files =
        (scanCodebase [paddedFile, unreadableFile]).files ∧
      (scanCodebase [paddedFile, unreadableFile]).language =
        (scanCodebase [paddedFile, unreadableFile]).language ∧
      (scanCodebase [paddedFile, unreadableFile]).endpoints =
        (scanCodebase [paddedFile, unreadableFile]).endpoints ∧
      (scanCodebase [paddedFile, unreadableFile]).auth_methods =
        (scanCodebase [paddedFile, unreadableFile]).auth_methods ∧
      (scanCodebase [paddedFile, unreadableFile]).security_issues =
        (scanCodebase [paddedFile, unreadableFile]).security_issues ∧
      (scanCodebase [paddedFile, unreadableFile]).architecture =
        (scanCodebase [paddedFile, unreadableFile]).architecture ∧
      scanCodebase [paddedFile, unreadableFile] =
        scanCodebase [paddedFile, unreadableFile] :=
  C7_scan_deterministic [paddedFile, unreadableFile] [paddedFile, unreadableFile] rfl

/-- Claim C8: scanning an empty directory yields an empty file list, an
empty endpoint list, and an architecture summary reflecting zero files. -/
theorem C8_empty_scan :
    scanCodebase [] =
      { language := "unknown", files := [], endpoints := [], auth_methods := [],
        databases := [], security_issues := [],
        architecture := "0 files | unknown | 0 endpoints" } := rfl

/-- Claim C9: scanning the one-file codebase whose content contains
`@app.route('/login')` and `jwt` detects an auth method, classifies the
language as the web framework, and reports no security issues. -/
theorem C9_login_jwt_scan :
    (scanCodebase [loginFile]).auth_methods = ["OAuth/JWT detected"] ∧
    (scanCodebase [loginFile]).auth_methods ≠ [] ∧
    (scanCodebase [loginFile]).language = "Python Web" ∧
    (scanCodebase [loginFile]).security_issues = [] := by
  refine ⟨rfl, ?_, rfl, rfl⟩
  decide

/-- Claim C10: the document generator's run operation is total — for every
content, project name and file-system outcome it returns a string, either
the success confirmation or an error string carrying the message of the
write that failed. -/
theorem C10_generator_total :
    ∀ (content name : String) (fs : FsOutcome),
      (generatorRun content name fs).output = okText name ∨
      ∃ e, (fs.mdWrite = Except.error e ∨ fs.docxSave = Except.error e) ∧
        (generatorRun content name fs).output = errText e := by
  intro content name fs
  rcases fs with ⟨md, dx⟩
  cases md with
  | error e => exact Or.inr ⟨e, Or.inl rfl, rfl⟩
  | ok u =>
    cases dx with
    | error e => exact Or.inr ⟨e, Or.inr rfl, rfl⟩
    | ok v => exact Or.inl rfl

/-- Claim C4 counterexample: the two writes are not independent — when the
markdown write fails, the DOCX file is not written even though its save
would succeed. -/
theorem C4_writes_not_independent :
    ¬ (∀ (content name : String) (fs : FsOutcome),
        fs.docxSave = Except.ok () →
        (generatorRun content name fs).docxWritten = true) := by
  intro h
  have hc := h "# Doc" "Documentation_Package"
    ⟨Except.error "disk full", Except.ok ()⟩ rfl
  exact absurd hc (by decide)

/-- Claim C4 (amended): the generator returns a confirmation listing both
output paths when both writes succeed, and otherwise a single error string
carrying the underlying cause of the first failure; the writes run
sequentially inside one guarded block, so a markdown-write failure
prevents the DOCX write, while a DOCX-save failure leaves the
already-written markdown file in place (no rollback) but reports only the
error, not a per-file partial success. -/
theorem C4_render_error_reporting :
    ∀ (content name : String) (fs : FsOutcome),
      (fs.mdWrite = Except.ok () → fs.docxSave = Except.ok () →
        generatorRun content name fs =
          ⟨okText name, true, true, docxBody content.data⟩) ∧
      (∀ e, fs.mdWrite = Except.ok () → fs.docxSave = Except.error e →
        generatorRun content name fs = ⟨errText e, true, false, []⟩) ∧
      (∀ e, fs.mdWrite = Except.error e →
        generatorRun content name fs = ⟨errText e, false, false, []⟩) := by
  intro content name fs
  rcases fs with ⟨md, dx⟩
  refine ⟨?_, ?_, ?_⟩
  · intro h1 h2
    dsimp only at h1 h2
    subst h1
    subst h2
    rfl
  · intro e h1 h2
    dsimp only at h1 h2
    subst h1
    subst h2
    rfl
  · intro e h1
    dsimp only at h1
    subst h1
    rfl

/-- Witness for C4 at a concrete failing DOCX save, exercising the
no-rollback case. -/
theorem C4_render_error_reporting_witness :
    generatorRun "# Doc" "Documentation_Package"
        ⟨Except.ok (), Except.error "disk full"⟩ =
      ⟨errText "disk full", true, false, []⟩ :=
  (C4_render_error_reporting "# Doc" "Documentation_Package"
    ⟨Except.ok (), Except.error "disk full"⟩).2.1 "disk full" rfl rfl

/-- Claim C6: if the hosted-service call backing the drafting stages
throws, the workflow returns status `error` with the underlying message,
the render step is never reached, and no output files are written. -/
theorem C6_hosted_throw_error :
    ∀ (prompt now : String) (step : AnalysisStep)
      (fbRender : Except String (List String)) (env : HostedEnv) (idr e : String),
      env.sdkAvailable = true → env.agents = some idr → env.clientOk = true →
      env.hosted = HostedOutcome.throws e →
      (run_docagent_workflow prompt step now fbRender env).result.status = "error" ∧
      (run_docagent_workflow prompt step now fbRender env).result.error = some e ∧
      (run_docagent_workflow prompt step now fbRender env).renderAttempted = false ∧
      (run_docagent_workflow prompt step now fbRender env).filesWritten = [] := by
  intro prompt now step fbRender env idr e hsdk hag hcl hth
  obtain ⟨sdk, ag, cl, ho, rd⟩ := env
  dsimp only at hsdk hag hcl hth
  subst hsdk
  subst hag
  subst hcl
  subst hth
  exact ⟨rfl, rfl, rfl, rfl⟩

/-- Witness for C6 at a concrete hosted environment. -/
theorem C6_hosted_throw_error_witness :
    (run_docagent_workflow "p" AnalysisStep.skipped "now" (Except.ok [])
        ⟨true, some "agent-1", true, HostedOutcome.throws "boom", Except.ok []⟩).result.status
        = "error" ∧
      (run_docagent_workflow "p" AnalysisStep.skipped "now" (Except.ok [])
        ⟨true, some "agent-1", true, HostedOutcome.throws "boom", Except.ok []⟩).result.error
        = some "boom" ∧
      (run_docagent_workflow "p" AnalysisStep.skipped "now" (Except.ok [])
        ⟨true, some "agent-1", true, HostedOutcome.throws "boom", Except.ok []⟩).renderAttempted
        = false ∧
      (run_docagent_workflow "p" AnalysisStep.skipped "now" (Except.ok [])
        ⟨true, some "agent-1", true, HostedOutcome.throws "boom", Except.ok []⟩).filesWritten
        = [] :=
  C6_hosted_throw_error "p" "now" AnalysisStep.skipped (Except.ok [])
    ⟨true, some "agent-1", true, HostedOutcome.throws "boom", Except.ok []⟩
    "agent-1" "boom" rfl rfl rfl rfl

/-! ## C2: the fallback path and its documentation -/

/-- The analysis step determined by an optional successful analysis. -/
def stepOf : Option AnalysisDict → AnalysisStep
  | none => AnalysisStep.skipped
  | some x => AnalysisStep.ok x

theorem run_docagent_fallback (prompt : String) (step : AnalysisStep)
    (now : String) (fbRender : Except String (List String)) (env : HostedEnv)
    (h : hostedUnavailable env) :
    run_docagent_workflow prompt step now fbRender env =
      fallbackTrace prompt step now fbRender := by
  obtain ⟨sdk, ag, cl, ho, rd⟩ := env
  rcases h with h | h | h <;> dsimp only at h <;> subst h
  · rfl
  · cases sdk <;> rfl
  · cases sdk
    · rfl
    · cases ag <;> rfl

theorem fallbackDocumentation_ne_empty (p now : String) (a : AnalysisDict) :
    fallbackDocumentation p a now ≠ "" := by
  intro h
  have hd : (fallbackDocumentation p a now).data = [] := by rw [h]
  unfold fallbackDocumentation at hd
  rw [strData_append] at hd
  exact absurd (List.append_eq_nil.mp hd).1 (by decide)

theorem fallbackDocumentation_contains_lit2 (n p now : String) (a : AnalysisDict)
    (h : containsS n fbLit2 = true) :
    containsS n (fallbackDocumentation p a now) = true := by
  unfold fallbackDocumentation
  apply containsS_append_right
  apply containsS_append_right
  exact containsS_append_left _ _ _ h

theorem fallbackDocumentation_contains_lit4 (n p now : String) (a : AnalysisDict)
    (h : containsS n fbLit4 = true) :
    containsS n (fallbackDocumentation p a now) = true := by
  unfold fallbackDocumentation
  apply containsS_append_right
  apply containsS_append_right
  apply containsS_append_right
  apply containsS_append_right
  apply containsS_append_right
  apply containsS_append_right
  exact containsS_append_left _ _ _ h

theorem fallbackDocumentation_contains_lit5 (n p now : String) (a : AnalysisDict)
    (h : containsS n fbLit5 = true) :
    containsS n (fallbackDocumentation p a now) = true := by
  unfold fallbackDocumentation
  apply containsS_append_right
  apply containsS_append_right
  apply containsS_append_right
  apply containsS_append_right
  apply containsS_append_right
  apply containsS_append_right
  apply containsS_append_right
  apply containsS_append_right
  apply containsS_append_right
  apply containsS_append_right
  exact containsS_append_left _ _ _ h

set_option maxRecDepth 100000 in
theorem fallbackDocumentation_sections (p now : String) (a : AnalysisDict) :
    containsS "BRD" (fallbackDocumentation p a now) = true ∧
    containsS "FRD" (fallbackDocumentation p a now) = true ∧
    containsS "NFRD" (fallbackDocumentation p a now) = true ∧
    containsS "Architecture Overview" (fallbackDocumentation p a now) = true ∧
    containsS "Security Requirements" (fallbackDocumentation p a now) = true ∧
    containsS "Compliance & Standards" (fallbackDocumentation p a now) = true :=
  ⟨fallbackDocumentation_contains_lit2 _ _ _ _ (by decide),
   fallbackDocumentation_contains_lit2 _ _ _ _ (by decide),
   fallbackDocumentation_contains_lit4 _ _ _ _ (by decide),
   fallbackDocumentation_contains_lit5 _ _ _ _ (by decide),
   fallbackDocumentation_contains_lit4 _ _ _ _ (by decide),
   fallbackDocumentation_contains_lit5 _ _ _ _ (by decide)⟩

/-- A hosted environment in which the hosted agent service is unavailable. -/
def offlineEnv : HostedEnv :=
  ⟨false, none, false, HostedOutcome.throws "offline", Except.error "offline"⟩

set_option maxRecDepth 1000000 in
/-- Claim C2 counterexample: the fallback documentation contains no literal
`"Security & Compliance"` section header, so the result does not contain
all five claimed headers. -/
theorem C2_missing_security_header :
    (run_docagent_workflow "Generate docs" AnalysisStep.skipped
        "2025-01-01 00:00:00" (Except.ok ["./outputs/Documentation_Package.md"])
        offlineEnv).result.status = "success_fallback" ∧
    containsS "Security & Compliance"
        (((run_docagent_workflow "Generate docs" AnalysisStep.skipped
          "2025-01-01 00:00:00" (Except.ok ["./outputs/Documentation_Package.md"])
          offlineEnv).result.documentation).getD "") = false := by
  exact ⟨rfl, by rfl⟩

/-- Claim C2 (amended): when the hosted agent service is unavailable and
the local analysis and render steps do not raise, the workflow returns
status `success_fallback` and a non-empty documentation string containing
the section headers BRD, FRD, NFRD and Architecture Overview; the security
and compliance material appears under the headers `Security Requirements`
and `Compliance & Standards` rather than a literal `Security & Compliance`
header. -/
theorem C2_fallback_sections :
    ∀ (prompt now : String) (a : Option AnalysisDict) (files : List String)
      (env : HostedEnv),
      hostedUnavailable env →
      (run_docagent_workflow prompt (stepOf a) now (Except.ok files)
          env).result.status = "success_fallback" ∧
      ∃ doc,
        (run_docagent_workflow prompt (stepOf a) now (Except.ok files)
          env).result.documentation = some doc ∧
        doc ≠ "" ∧
        containsS "BRD" doc = true ∧
        containsS "FRD" doc = true ∧
        containsS "NFRD" doc = true ∧
        containsS "Architecture Overview" doc = true ∧
        containsS "Security Requirements" doc = true ∧
        containsS "Compliance & Standards" doc = true := by
  intro prompt now a files env h
  rw [run_docagent_fallback _ _ _ _ _ h]
  cases a with
  | none =>
    obtain ⟨h1, h2, h3, h4, h5, h6⟩ :=
      fallbackDocumentation_sections prompt now emptyAnalysisDict
    exact ⟨rfl, fallbackDocumentation prompt emptyAnalysisDict now, rfl,
      fallbackDocumentation_ne_empty prompt now emptyAnalysisDict,
      h1, h2, h3, h4, h5, h6⟩
  | some x =>
    obtain ⟨h1, h2, h3, h4, h5, h6⟩ := fallbackDocumentation_sections prompt now x
    exact ⟨rfl, fallbackDocumentation prompt x now, rfl,
      fallbackDocumentation_ne_empty prompt now x,
      h1, h2, h3, h4, h5, h6⟩

/-- Witness for C2 at a concrete offline environment. -/
theorem C2_fallback_sections_witness :
    (run_docagent_workflow "Generate full documentation for a shopping cart app"
        (stepOf none) "2025-01-01 00:00:00"
        (Except.ok ["./outputs/Documentation_Package.md"])
        offlineEnv).result.status = "success_fallback" ∧
    ∃ doc,
      (run_docagent_workflow "Generate full documentation for a shopping cart app"
        (stepOf none) "2025-01-01 00:00:00"
        (Except.ok ["./outputs/Documentation_Package.md"])
        offlineEnv).result.documentation = some doc ∧
      doc ≠ "" ∧
      containsS "BRD" doc = true ∧
      containsS "FRD" doc = true ∧
      containsS "NFRD" doc = true ∧
      containsS "Architecture Overview" doc = true ∧
      containsS "Security Requirements" doc = true ∧
      containsS "Compliance & Standards" doc = true :=
  C2_fallback_sections "Generate full documentation for a shopping cart app"
    "2025-01-01 00:00:00" none ["./outputs/Documentation_Package.md"]
    offlineEnv (Or.inl rfl)
